import Mathlib

/-!
Verification development for the Telegram feedback bot.

The definitions below are a shallow embedding of the bot's data layer
(`models.py`) and of the handlers of `curator_flow/recipients_handlers.py`,
`curator_flow/send_survey_handlers.py`, `curator_flow/question_handlers.py`,
`student_flow/survey_handlers.py`, `student_flow/common_handlers.py` and
`common_flow/common_handlers.py`.  Database tables are lists of rows,
autoincrement columns are explicit counters, the aiogram FSM context of one
actor is a record of state tag plus data bag, and transport outcomes are
boolean parameters.
-/

namespace FeedbackBot

/-! ## Data model (models.py) -/

/-- models.py: `QuestionType(str, enum.Enum)` with values `scale` and `text`. -/
inductive QuestionType where
  | scale
  | text
deriving DecidableEq, Repr

/-- models.py: `Course` table. -/
structure Course where
  id : Nat
  name : String
deriving DecidableEq, Repr

/-- models.py: `Group` table; `course_id` is a foreign key to `Course`. -/
structure Group where
  id : Nat
  name : String
  course_id : Nat
deriving DecidableEq, Repr

/-- models.py: `Student` table; `tg_user_id` is nullable (a student without it
is unreachable). -/
structure Student where
  id : Nat
  tg_username : String
  tg_user_id : Option Nat
deriving DecidableEq, Repr

/-- models.py: `GroupStudent` link table (one enrollment row). -/
structure GroupStudent where
  group_id : Nat
  student_id : Nat
deriving DecidableEq, Repr

/-- models.py: `Survey` table (timestamp omitted: no claim mentions it). -/
structure Survey where
  id : Nat
  group_id : Nat
  title : String
deriving DecidableEq, Repr

/-- models.py: `Question` table with 1-based `order`. -/
structure Question where
  id : Nat
  survey_id : Nat
  text : String
  q_type : QuestionType
  order : Nat
deriving DecidableEq, Repr

/-- models.py: `Response` table (denormalized row; `answered_at` omitted). -/
structure Response where
  survey_id : Nat
  student_tg_id : Nat
  student_tg_username : String
  course_name : String
  group_name : String
  survey_title : String
  question_text : String
  question_type : QuestionType
  answer : String
  session_id : String
deriving DecidableEq, Repr

/-- The database state: one list of rows per table, plus explicit
autoincrement counters for the two tables whose generated ids matter. -/
structure DB where
  courses : List Course
  groups : List Group
  students : List Student
  group_students : List GroupStudent
  surveys : List Survey
  questions : List Question
  responses : List Response
  next_student_id : Nat
  next_question_id : Nat
deriving DecidableEq, Repr

/-- Basic well-formedness of a database state: group ids are unique,
student ids and usernames are unique, all student ids are below the
autoincrement counter, and every enrollment row references an existing
student. -/
def WF (db : DB) : Prop :=
  (db.groups.map Group.id).Nodup ∧
  (db.students.map Student.id).Nodup ∧
  (db.students.map Student.tg_username).Nodup ∧
  (∀ s ∈ db.students, s.id < db.next_student_id) ∧
  (∀ gs ∈ db.group_students, ∃ s ∈ db.students, s.id = gs.student_id)

instance (db : DB) : Decidable (WF db) := by
  unfold WF; infer_instance

/-- The enrollment invariant of §3 of the design: within a single course, a
recipient may belong to at most one group.  Group membership in a course is
read through the `Group` rows, as the SQL joins in the handlers do. -/
def OneGroupPerCourse (db : DB) : Prop :=
  ∀ gs1 ∈ db.group_students, ∀ gs2 ∈ db.group_students,
    gs1.student_id = gs2.student_id →
    ∀ g1 ∈ db.groups, g1.id = gs1.group_id →
    ∀ g2 ∈ db.groups, g2.id = gs2.group_id →
    g1.course_id = g2.course_id →
    gs1.group_id = gs2.group_id

instance (db : DB) : Decidable (OneGroupPerCourse db) := by
  unfold OneGroupPerCourse; infer_instance

/-! ## Enrollment reconciler (curator_flow/recipients_handlers.py) -/

/-- `session.get(Group, group_id)`: first group row with the given id. -/
def groupRow (db : DB) (group_id : Nat) : Option Group :=
  db.groups.find? (fun g => decide (g.id = group_id))

/-- The join `Group.id == gid && Group.course_id == c` used by the conflict
queries: the group `gid` belongs to course `c`. -/
def inCourse (db : DB) (gid c : Nat) : Bool :=
  db.groups.any (fun g => decide (g.id = gid) && decide (g.course_id = c))

/-- recipients_handlers.py lines 184-196 (`conflict_check_stmt`) and lines
660-670: student `sid` has an enrollment in a group of course `course_id`
other than the target `group_id`. -/
def hasConflict (db : DB) (course_id group_id sid : Nat) : Bool :=
  db.group_students.any (fun gs =>
    decide (gs.student_id = sid) && decide (gs.group_id ≠ group_id) &&
      inCourse db gs.group_id course_id)

/-- recipients_handlers.py lines 171-208: usernames from the input that
belong to an existing student already enrolled in another group of the same
course (`students_in_conflict`). -/
def students_in_conflict (db : DB) (group_id course_id : Nat)
    (valid_usernames_input : List String) : List String :=
  ((db.students.filter (fun s => decide (s.tg_username ∈ valid_usernames_input))).filter
    (fun s => hasConflict db course_id group_id s.id)).map Student.tg_username

/-- recipients_handlers.py line 211: `usernames_to_process =
valid_usernames_input - students_in_conflict`. -/
def usernames_to_process (db : DB) (group_id course_id : Nat)
    (valid_usernames_input : List String) : List String :=
  valid_usernames_input.filter
    (fun u => decide (u ∉ students_in_conflict db group_id course_id valid_usernames_input))

/-- recipients_handlers.py lines 216-218: student ids currently linked to the
target group. -/
def current_student_ids (db : DB) (group_id : Nat) : List Nat :=
  (db.group_students.filter (fun gs => decide (gs.group_id = group_id))).map
    GroupStudent.student_id

/-- recipients_handlers.py lines 226-228: existing students whose username is
in the filtered input. -/
def existing_students (db : DB) (names : List String) : List Student :=
  db.students.filter (fun s => decide (s.tg_username ∈ names))

/-- recipients_handlers.py line 237: `usernames_to_create =
usernames_to_process - found_usernames`. -/
def usernames_to_create (db : DB) (names : List String) : List String :=
  names.filter (fun u => decide (u ∉ (existing_students db names).map Student.tg_username))

/-- recipients_handlers.py lines 238-246: a fresh `Student` row (no channel
identity) per username to create, ids taken from the autoincrement counter. -/
def created_students (db : DB) (names : List String) : List Student :=
  (usernames_to_create db names).enum.map
    (fun p => { id := db.next_student_id + p.1, tg_username := p.2, tg_user_id := none })

/-- recipients_handlers.py lines 222-248: `new_student_ids`, ids of the
resolved-and-filtered candidates (found existing ones plus created ones). -/
def new_student_ids (db : DB) (names : List String) : List Nat :=
  (existing_students db names).map Student.id ++ (created_students db names).map Student.id

/-- recipients_handlers.py line 251: `ids_to_add = new_student_ids -
current_student_ids`. -/
def ids_to_add (db : DB) (group_id : Nat) (names : List String) : List Nat :=
  (new_student_ids db names).filter (fun i => decide (i ∉ current_student_ids db group_id))

/-- recipients_handlers.py line 252: `ids_to_remove = current_student_ids -
new_student_ids`. -/
def ids_to_remove (db : DB) (group_id : Nat) (names : List String) : List Nat :=
  (current_student_ids db group_id).filter (fun i => decide (i ∉ new_student_ids db names))

/-- recipients_handlers.py line 253: `ids_to_keep =
current_student_ids ∩ new_student_ids`. -/
def ids_to_keep (db : DB) (group_id : Nat) (names : List String) : List Nat :=
  (current_student_ids db group_id).filter (fun i => decide (i ∈ new_student_ids db names))

/-- Report of one bulk reconciliation, mirroring the buckets announced by the
summary message of `set_recipients_usernames_entered`. -/
structure ReconcileResult where
  db : DB
  ignored : List String
  created : List String
  to_add : List Nat
  to_remove : List Nat
  to_keep : List Nat
  requested : List Nat
  current : List Nat
deriving DecidableEq, Repr

/-- recipients_handlers.py lines 162-288, `set_recipients_usernames_entered`
after input validation: the bulk set-recipients reconciliation.  Conflicting
usernames are filtered out and reported as ignored, the remaining candidates
are resolved or created, the set-diff buckets are computed, and the links of
the target group are updated (removals then additions) in one unit. -/
def set_recipients_usernames_entered (db : DB) (group_id course_id : Nat)
    (valid_usernames_input : List String) : ReconcileResult :=
  let conflicts := students_in_conflict db group_id course_id valid_usernames_input
  let names := usernames_to_process db group_id course_id valid_usernames_input
  let current := current_student_ids db group_id
  let requested := new_student_ids db names
  let to_add := ids_to_add db group_id names
  let to_remove := ids_to_remove db group_id names
  let to_keep := ids_to_keep db group_id names
  let group_students' :=
    (db.group_students.filter (fun gs =>
      !(decide (gs.group_id = group_id) && decide (gs.student_id ∈ to_remove)))) ++
      to_add.map (fun sid => { group_id := group_id, student_id := sid })
  { db := { db with
      students := db.students ++ created_students db names,
      next_student_id := db.next_student_id + (usernames_to_create db names).length,
      group_students := group_students' },
    ignored := conflicts,
    created := usernames_to_create db names,
    to_add := to_add, to_remove := to_remove, to_keep := to_keep,
    requested := requested, current := current }

/-- Outcome reported by the single add-recipient handler. -/
inductive AddRecipientOutcome where
  | already_in_group
  | conflict
  | added
deriving DecidableEq, Repr

/-- recipients_handlers.py lines 615-700, `add_recipient_username_entered`
after input validation: single add with the same conflict filter.  An
existing member is reported; a student enrolled in another group of the same
course is rejected with a report and nothing is written; otherwise the
student is found or created and one link is added. -/
def add_recipient_username_entered (db : DB) (group_id course_id : Nat)
    (username : String) : DB × AddRecipientOutcome :=
  match db.students.find? (fun s => decide (s.tg_username = username)) with
  | some student =>
    if db.group_students.any (fun gs =>
        decide (gs.group_id = group_id) && decide (gs.student_id = student.id)) then
      (db, .already_in_group)
    else if hasConflict db course_id group_id student.id then
      (db, .conflict)
    else
      ({ db with group_students :=
          db.group_students ++ [{ group_id := group_id, student_id := student.id }] },
        .added)
  | none =>
    let student : Student :=
      { id := db.next_student_id, tg_username := username, tg_user_id := none }
    ({ db with
        students := db.students ++ [student],
        next_student_id := db.next_student_id + 1,
        group_students :=
          db.group_students ++ [{ group_id := group_id, student_id := student.id }] },
      .added)

/-- recipients_handlers.py lines 494-544, `delete_recipient_student_selected`:
single delete of one enrollment link; the boolean mirrors `rowcount > 0`. -/
def delete_recipient_student_selected (db : DB) (group_id student_id : Nat) :
    DB × Bool :=
  let remaining := db.group_students.filter (fun gs =>
    !(decide (gs.group_id = group_id) && decide (gs.student_id = student_id)))
  ({ db with group_students := remaining },
    decide (remaining.length < db.group_students.length))

/-! ## Conversational state (aiogram FSM context of one actor) -/

/-- The two states of `SurveyResponseStates` in student_flow/survey_handlers.py.
`SurveyResponseStates` declares exactly `selecting_anonymity` and `answering`;
there is no `awaiting_answer` attribute. -/
inductive FSMState where
  | selecting_anonymity
  | answering
deriving DecidableEq, Repr

/-- The per-actor FSM data bag: each key that any survey handler reads or
writes, absent keys modelled as `none`.  `state.update_data(...)` merges keys
into this record; `state.clear()` resets it. -/
structure FSMData where
  current_question_id : Option Nat := none
  survey_id : Option Nat := none
  course_name : Option String := none
  group_name : Option String := none
  survey_title : Option String := none
  question_type : Option QuestionType := none
  question_order : Option Nat := none
  is_anonymous : Option Bool := none
  session_id : Option String := none
  first_question_id : Option Nat := none
  last_question_message_id : Option Nat := none
deriving DecidableEq, Repr

/-- One actor's FSM context: current state tag plus data bag
(`state.get_state()` returns `none` when no flow is active). -/
structure FSMContext where
  state : Option FSMState := none
  data : FSMData := {}
deriving DecidableEq, Repr

/-! ## Broadcast dispatcher (curator_flow/send_survey_handlers.py) -/

/-- The SQL join used by both send-survey handlers: one row per enrollment
link of the group whose student row exists. -/
def students_of_group (db : DB) (group_id : Nat) : List Student :=
  (db.group_students.filter (fun gs => decide (gs.group_id = group_id))).filterMap
    (fun gs => db.students.find? (fun s => decide (s.id = gs.student_id)))

/-- send_survey_handlers.py line 371: students with a known `tg_user_id`. -/
def reachable_students (students : List Student) : List Student :=
  students.filter (fun s => s.tg_user_id.isSome)

/-- Stable insertion of a question into a list sorted by `order`. -/
def insertByOrder (q : Question) : List Question → List Question
  | [] => [q]
  | r :: rs => if q.order ≤ r.order then q :: r :: rs else r :: insertByOrder q rs

/-- Stable sort of questions by their `order` column. -/
def sortByOrder : List Question → List Question
  | [] => []
  | q :: qs => insertByOrder q (sortByOrder qs)

/-- Questions of a survey ordered by `order`
(`select(Question).where(...).order_by(Question.order)`). -/
def questions_of_survey (db : DB) (survey_id : Nat) : List Question :=
  sortByOrder (db.questions.filter (fun q => decide (q.survey_id = survey_id)))

/-- send_survey_handlers.py lines 407-478, `initiate_survey_for_student`:
sends the first question to one student and, if the send succeeds, sets that
student's FSM context to `answering`, merging the listed keys into whatever
data bag the context already had (`update_data`, no `clear`).  `sendOk` is
the transport outcome of `bot.send_message` (false for
`TelegramForbiddenError`, `TelegramBadRequest` or any other exception, in
which case the state is not touched).  Returns the success flag and the
student's context. -/
def initiate_survey_for_student (db : DB) (student : Student)
    (first_question : Question) (survey_id : Nat) (sendOk : Bool)
    (ctx : FSMContext) : Bool × FSMContext :=
  if student.tg_user_id = none then (false, ctx)
  else if first_question.text = "" then (false, ctx)
  else
    match db.surveys.find? (fun sv => decide (sv.id = survey_id)) with
    | none => (false, ctx)
    | some survey =>
      match groupRow db survey.group_id with
      | none => (false, ctx)
      | some group =>
        let course_name :=
          match db.courses.find? (fun c => decide (c.id = group.course_id)) with
          | some c => c.name
          | none => "Неизвестный курс"
        if !sendOk then (false, ctx)
        else
          (true,
            { state := some .answering,
              data := { ctx.data with
                current_question_id := some first_question.id,
                survey_id := some survey_id,
                course_name := some course_name,
                group_name := some group.name,
                survey_title := some survey.title,
                question_type := some first_question.q_type,
                question_order := some 1 } })

/-- Outcome of the group-selection step of /send_now. -/
inductive SendNowGroupOutcome where
  | abort (report : String)
  | show_surveys (surveys : List Survey)
deriving DecidableEq, Repr

/-- send_survey_handlers.py lines 215-301, `send_now_group_selected`: checks
that the group exists, that it has surveys, that some survey of the group
has questions, and that the group has students; any failed check aborts with
a report and clears the flow, otherwise the survey keyboard is shown. -/
def send_now_group_selected (db : DB) (group_id : Nat) : SendNowGroupOutcome :=
  match groupRow db group_id with
  | none => .abort "Ошибка: Выбранная группа не найдена."
  | some group =>
    let surveys := db.surveys.filter (fun sv => decide (sv.group_id = group_id))
    if surveys.isEmpty then
      .abort ("⚠️ Для группы '" ++ group.name ++ "' не создано ни одного опроса.")
    else
      let has_questions := surveys.any (fun sv =>
        db.questions.any (fun q => decide (q.survey_id = sv.id)))
      if !has_questions then
        .abort ("⚠️ Для группы '" ++ group.name ++ "' не заданы вопросы ни в одном опросе.")
      else if (students_of_group db group_id).isEmpty then
        .abort ("⚠️ В группе '" ++ group.name ++ "' нет студентов.")
      else
        .show_surveys surveys

/-- The aggregate report of one completed dispatch: the numbers of the status
message (successful sends, reachable count, unreachable count) plus the
per-recipient outcomes of the launch loop. -/
structure DispatchReport where
  survey_title : String
  successful_sends : Nat
  student_count : Nat
  unreachable_count : Nat
  results : List (Student × Bool × FSMContext)
deriving DecidableEq, Repr

/-- Outcome of the survey-selection step of /send_now. -/
inductive SendNowSurveyOutcome where
  | abort (report : String)
  | dispatched (report : DispatchReport)
deriving DecidableEq, Repr

/-- send_survey_handlers.py lines 303-404, `send_now_survey_selected`: checks
the group context, the survey and its question list, then launches
`initiate_survey_for_student` for every reachable student (a fixed delay
between launches, no retry), counts the successes, and reports the summary.
`sendOk` gives each student's transport outcome, `ctxOf` each student's
FSM context before the broadcast. -/
def send_now_survey_selected (db : DB) (group_id : Option Nat)
    (survey_id : Nat) (sendOk : Nat → Bool) (ctxOf : Student → FSMContext) :
    SendNowSurveyOutcome :=
  match group_id with
  | none => .abort "Ошибка: Потерян контекст группы. Начните сначала с /send_now."
  | some group_id =>
    match db.surveys.find? (fun sv => decide (sv.id = survey_id)) with
    | none => .abort "Ошибка: Выбранный опрос не найден или не принадлежит выбранной группе."
    | some survey =>
      if survey.group_id ≠ group_id then
        .abort "Ошибка: Выбранный опрос не найден или не принадлежит выбранной группе."
      else
        let questions := questions_of_survey db survey_id
        match questions with
        | [] => .abort ("⚠️ Невозможно отправить опрос '" ++ survey.title ++ "': в опросе отсутствуют вопросы.")
        | first_question :: _ =>
          let students := students_of_group db group_id
          let reachable := reachable_students students
          let results := reachable.map (fun s =>
            (s, initiate_survey_for_student db s first_question survey_id
                  (sendOk s.id) (ctxOf s)))
          .dispatched
            { survey_title := survey.title,
              successful_sends := (results.filter (fun r => r.2.1)).length,
              student_count := reachable.length,
              unreachable_count := students.length - reachable.length,
              results := results }

/-! ## Response collector (student_flow/survey_handlers.py) -/

/-- survey_handlers.py line 31: sentinel answer stored for skipped
questions. -/
def SKIPPED_ANSWER : String := "[SKIPPED]"

/-- Python `str.strip()`: remove leading and trailing whitespace
(executable model over the character list). -/
def strip (s : String) : String :=
  String.mk (((s.data.dropWhile Char.isWhitespace).reverse.dropWhile
    Char.isWhitespace).reverse)

/-- survey_handlers.py lines 48-130, `save_response`: persists one denormalized
`Response` row from the actor's data bag.  Fails (no write) when the bag
lacks `survey_id`/`current_question_id`, when the session is not anonymous
and no student row carries the actor's `tg_user_id`, or when the current
question row is gone.  When the session is anonymous the identity fields are
the sentinel `"Аноним"` and `0`, whether or not a student row resolves.
`session_id or ""` stores the empty string when the bag has no session id. -/
def save_response (db : DB) (data : FSMData) (user_id : Nat)
    (answer_text : String) : DB × Bool :=
  match data.survey_id, data.current_question_id with
  | some survey_id, some question_id =>
    let is_anonymous := data.is_anonymous.getD false
    let student := db.students.find? (fun s => decide (s.tg_user_id = some user_id))
    let student_username :=
      if is_anonymous then "Аноним"
      else match student with
        | some s => s.tg_username
        | none => "[Unknown User ID: " ++ toString user_id ++ "]"
    let stored_user_id := if is_anonymous then 0 else user_id
    if student = none ∧ ¬is_anonymous then (db, false)
    else
      match db.questions.find? (fun q => decide (q.id = question_id)) with
      | none => (db, false)
      | some question =>
        let new_response : Response :=
          { survey_id := survey_id,
            student_tg_id := stored_user_id,
            student_tg_username := student_username,
            course_name := data.course_name.getD "",
            group_name := data.group_name.getD "",
            survey_title := data.survey_title.getD "",
            question_text := question.text,
            question_type := data.question_type.getD question.q_type,
            answer := strip answer_text,
            session_id := data.session_id.getD "" }
        ({ db with responses := db.responses ++ [new_response] }, true)
  | _, _ => (db, false)

/-- Outcome of the advance step: next question sent with an updated data bag,
or session complete (state cleared), or context lost (state cleared). -/
inductive AdvanceOutcome where
  | next_question (data : FSMData)
  | completed
  | error_cleared
deriving DecidableEq, Repr

/-- survey_handlers.py lines 133-188, `send_next_question_or_complete`: looks
up the question of the same survey with `order = question_order + 1`; if
found, sends it and merges the new question's keys into the data bag; if
absent, declares the survey complete and clears the state. -/
def send_next_question_or_complete (db : DB) (data : FSMData) : AdvanceOutcome :=
  match data.survey_id with
  | none => .error_cleared
  | some survey_id =>
    let question_order := data.question_order.getD 1
    let next_order := question_order + 1
    match (db.questions.filter (fun q =>
        decide (q.survey_id = survey_id) && decide (q.order = next_order))).head? with
    | some next_question =>
      .next_question { data with
        current_question_id := some next_question.id,
        question_type := some next_question.q_type,
        question_order := some next_order }
    | none => .completed

/-- Result of one answering-state handler run. -/
inductive HandlerOutcome where
  | advanced (a : AdvanceOutcome)
  | save_failed_cleared
  | invalid_input_kept
deriving DecidableEq, Repr

/-- survey_handlers.py lines 282-293, `handle_skip_button`: persists the
skip sentinel as the answer and advances; on save failure clears the state. -/
def handle_skip_button (db : DB) (data : FSMData) (user_id : Nat) :
    DB × HandlerOutcome :=
  let r := save_response db data user_id SKIPPED_ANSWER
  if r.2 then (r.1, .advanced (send_next_question_or_complete r.1 data))
  else (r.1, .save_failed_cleared)

/-- survey_handlers.py lines 313-323, `handle_skip_command`: the /skip
command, same composition as the skip button. -/
def handle_skip_command (db : DB) (data : FSMData) (user_id : Nat) :
    DB × HandlerOutcome :=
  let r := save_response db data user_id SKIPPED_ANSWER
  if r.2 then (r.1, .advanced (send_next_question_or_complete r.1 data))
  else (r.1, .save_failed_cleared)

/-- survey_handlers.py lines 296-311, `handle_text_answer`: rejects empty text
and commands (state kept), otherwise persists the answer and advances. -/
def handle_text_answer (db : DB) (data : FSMData) (user_id : Nat)
    (answer_text : String) : DB × HandlerOutcome :=
  if answer_text = "" ∨ answer_text.data.head? = some '/' then (db, .invalid_input_kept)
  else
    let r := save_response db data user_id answer_text
    if r.2 then (r.1, .advanced (send_next_question_or_complete r.1 data))
    else (r.1, .save_failed_cleared)

/-- aiogram dispatch of one incoming message to an actor's `answering`
state: the dispatcher stops at the first registered handler whose filters
all match.  No router included before the survey router (bot.py lines
103-114) has a handler matching a `/skip` message, and inside the survey
router `handle_text_answer` (survey_handlers.py line 296, filters
`answering` + `F.text`) is registered before `handle_skip_command`
(line 314, filters `answering` + `Command("skip")`).  Every message that
carries text — `"/skip"` included — satisfies `F.text`, so it is delivered
to `handle_text_answer`; a message without text satisfies neither filter.
`handle_skip_command` is therefore never invoked. -/
def answering_message_dispatch (db : DB) (data : FSMData) (user_id : Nat)
    (text : Option String) : Option (DB × HandlerOutcome) :=
  match text with
  | some answer_text => some (handle_text_answer db data user_id answer_text)
  | none => none

/-- survey_handlers.py lines 193-257, `handle_survey_anonymity_selection`:
the only handler that generates a session id (`str(uuid.uuid4())`, modelled
by the `fresh_session_id` parameter).  It runs only in the
`selecting_anonymity` state, which no code path ever enters for surveys.
Returns `none` when the data bag lost its survey context (state cleared). -/
def handle_survey_anonymity_selection (db : DB) (ctx : FSMContext)
    (is_anonymous : Bool) (fresh_session_id : String) : Option FSMContext :=
  match ctx.data.survey_id, ctx.data.first_question_id, ctx.data.course_name,
      ctx.data.group_name, ctx.data.survey_title with
  | some _, some first_question_id, some _, some _, some _ =>
    match db.questions.find? (fun q => decide (q.id = first_question_id)) with
    | none => none
    | some first_question =>
      some { state := some .answering,
             data := { ctx.data with
               current_question_id := some first_question_id,
               question_type := some first_question.q_type,
               question_order := some 1,
               is_anonymous := some is_anonymous,
               session_id := some fresh_session_id } }
  | _, _, _, _, _ => none

/-! ## Survey authoring finalize (curator_flow/question_handlers.py) -/

/-- The authoring data bag: target survey and the accumulated question list
(type and text per question). -/
structure AuthoringData where
  survey_id : Option Nat := none
  survey_title : Option String := none
  questions : List (QuestionType × String) := []
deriving DecidableEq, Repr

/-- Outcome of the finalize step. -/
inductive FinishOutcome where
  | lost_survey_id
  | empty_cancelled
  | saved (count : Nat)
deriving DecidableEq, Repr

/-- question_handlers.py lines 69-116, `save_questions_and_finish`: finalize
of the authoring flow.  Without a survey id, or with an empty accumulated
list, nothing is written and the operator is informed; otherwise all
existing questions of the survey are deleted and the new list is inserted
with 1-based orders, in one transaction. -/
def save_questions_and_finish (db : DB) (data : AuthoringData) :
    DB × FinishOutcome :=
  match data.survey_id with
  | none => (db, .lost_survey_id)
  | some survey_id =>
    if data.questions.isEmpty then (db, .empty_cancelled)
    else
      let remaining := db.questions.filter (fun q => decide (q.survey_id ≠ survey_id))
      let new_questions := data.questions.enum.map (fun p =>
        { id := db.next_question_id + p.1,
          survey_id := survey_id,
          text := p.2.2,
          q_type := p.2.1,
          order := p.1 + 1 : Question })
      ({ db with
          questions := remaining ++ new_questions,
          next_question_id := db.next_question_id + data.questions.length },
        .saved new_questions.length)

/-! ## Cancellation preludes of the top-level commands -/

/-- What the cancellation prelude of a top-level command did: nothing (no
active state), or state cleared with a cancellation notice and a flag telling
whether deletion of the last question message was attempted, or state cleared
and notice sent but the handler then crashed (a Python `AttributeError`)
before it could do anything else. -/
inductive CancelOutcome where
  | no_active
  | cancelled (notice_sent : Bool) (delete_attempted : Bool)
  | cancelled_then_error (notice_sent : Bool) (error : String)
deriving DecidableEq, Repr

/-- student_flow/common_handlers.py lines 25-44, the cancellation prelude of
`cmd_start` (/start): with an active state, clears it, sends the notice, and
attempts to delete the last question message only when the state was
`answering` and the data bag holds a `last_question_message_id` (deletion
failure is caught and logged). -/
def cmd_start (ctx : FSMContext) : CancelOutcome :=
  match ctx.state with
  | none => .no_active
  | some st =>
    .cancelled true
      (decide (st = .answering) && ctx.data.last_question_message_id.isSome)

/-- common_flow/common_handlers.py lines 26-46, the cancellation prelude of
`cmd_help` (/help): with an active state, clears it and sends the notice,
then evaluates `SurveyResponseStates.awaiting_answer` — an attribute that
`SurveyResponseStates` does not declare (its states are
`selecting_anonymity` and `answering`), so the handler raises
`AttributeError` and never reaches the deletion attempt or the help text. -/
def cmd_help (ctx : FSMContext) : CancelOutcome :=
  match ctx.state with
  | none => .no_active
  | some _ =>
    .cancelled_then_error true
      "AttributeError: type object SurveyResponseStates has no attribute awaiting_answer"

/-- send_survey_handlers.py lines 172-183, the cancellation prelude of
`send_now_start` (/send_now): with an active state, clears it and sends the
notice; it never attempts to delete an outstanding question message. -/
def send_now_start (ctx : FSMContext) : CancelOutcome :=
  match ctx.state with
  | none => .no_active
  | some _ => .cancelled true false

/-! ## Concrete sample databases and contexts -/

/-- A database whose single group has one survey with one question and one
enrolled student who never started the bot (no `tg_user_id`). -/
def DB1 : DB :=
  { courses := [{ id := 1, name := "Курс" }],
    groups := [{ id := 1, name := "Группа", course_id := 1 }],
    students := [{ id := 1, tg_username := "alice", tg_user_id := none }],
    group_students := [{ group_id := 1, student_id := 1 }],
    surveys := [{ id := 1, group_id := 1, title := "T1" }],
    questions := [{ id := 1, survey_id := 1, text := "Q1", q_type := .scale, order := 1 }],
    responses := [],
    next_student_id := 2,
    next_question_id := 2 }

/-- Two groups of one course: alice is enrolled in group 1 and reachable,
bob is enrolled in group 2 (so adding bob to group 1 would violate the
one-group-per-course invariant). -/
def DB2 : DB :=
  { courses := [{ id := 1, name := "Курс" }],
    groups := [{ id := 1, name := "Группа", course_id := 1 },
               { id := 2, name := "Группа2", course_id := 1 }],
    students := [{ id := 1, tg_username := "alice", tg_user_id := some 11 },
                 { id := 2, tg_username := "bob", tg_user_id := none }],
    group_students := [{ group_id := 1, student_id := 1 },
                       { group_id := 2, student_id := 2 }],
    surveys := [{ id := 1, group_id := 1, title := "T1" }],
    questions := [{ id := 1, survey_id := 1, text := "Q1", q_type := .scale, order := 1 }],
    responses := [],
    next_student_id := 3,
    next_question_id := 2 }

/-- Like `DB1`, but the enrolled student is reachable (`tg_user_id = 100`). -/
def DB3 : DB :=
  { courses := [{ id := 1, name := "Курс" }],
    groups := [{ id := 1, name := "Группа", course_id := 1 }],
    students := [{ id := 1, tg_username := "alice", tg_user_id := some 100 }],
    group_students := [{ group_id := 1, student_id := 1 }],
    surveys := [{ id := 1, group_id := 1, title := "T1" }],
    questions := [{ id := 1, survey_id := 1, text := "Q1", q_type := .scale, order := 1 }],
    responses := [],
    next_student_id := 2,
    next_question_id := 2 }

/-- The first question of `DB3`'s survey. -/
def Q1 : Question := { id := 1, survey_id := 1, text := "Q1", q_type := .scale, order := 1 }

/-- The context a broadcast installs for `DB3`'s student when the actor had
no previous flow. -/
def ctxFresh : FSMContext :=
  (initiate_survey_for_student DB3 { id := 1, tg_username := "alice", tg_user_id := some 100 }
    Q1 1 true {}).2

/-- A context left over from an earlier flow: an anonymous session with its
own session id. -/
def ctxLeftover : FSMContext :=
  { state := some .answering,
    data := { is_anonymous := some true, session_id := some "old-session" } }

/-- The context a broadcast installs for `DB3`'s student when the actor's
bag still holds `ctxLeftover`'s data. -/
def ctxStale : FSMContext :=
  (initiate_survey_for_student DB3 { id := 1, tg_username := "alice", tg_user_id := some 100 }
    Q1 1 true ctxLeftover).2

/-- A concrete reconciliation over `DB2`: bob conflicts (group 2 of the same
course), carol does not exist yet, alice is dropped from group 1. -/
def RW2 : ReconcileResult := set_recipients_usernames_entered DB2 1 1 ["bob", "carol"]

/-- Like `DB1`, but the survey has no questions. -/
def DB4 : DB := { DB1 with questions := [] }

/-- The dispatch report of broadcasting `DB3`'s survey: one reachable
student, one successful send. -/
def REP3 : DispatchReport :=
  { survey_title := "T1",
    successful_sends := 1,
    student_count := 1,
    unreachable_count := 0,
    results := [({ id := 1, tg_username := "alice", tg_user_id := some 100 }, true, ctxFresh)] }

/-- An anonymous answering session's data bag over `DB1` (whose single
student never started the bot, so no student row resolves). -/
def anonData : FSMData :=
  { survey_id := some 1, current_question_id := some 1, is_anonymous := some true }

/-- An authoring bag with two accumulated questions for survey 1. -/
def AData : AuthoringData :=
  { survey_id := some 1, survey_title := some "T1",
    questions := [(.text, "W"), (.scale, "V")] }

/-- An authoring bag whose accumulated question list is empty. -/
def ADataEmpty : AuthoringData :=
  { survey_id := some 1, survey_title := some "T1", questions := [] }

/-! ## Theorems -/

theorem mem_ids_to_add {db : DB} {group_id : Nat} {names : List String} {x : Nat} :
    x ∈ ids_to_add db group_id names ↔
      x ∈ new_student_ids db names ∧ x ∉ current_student_ids db group_id := by
  simp [ids_to_add, List.mem_filter]

theorem mem_ids_to_remove {db : DB} {group_id : Nat} {names : List String} {x : Nat} :
    x ∈ ids_to_remove db group_id names ↔
      x ∈ current_student_ids db group_id ∧ x ∉ new_student_ids db names := by
  simp [ids_to_remove, List.mem_filter]

theorem mem_ids_to_keep {db : DB} {group_id : Nat} {names : List String} {x : Nat} :
    x ∈ ids_to_keep db group_id names ↔
      x ∈ current_student_ids db group_id ∧ x ∈ new_student_ids db names := by
  simp [ids_to_keep, List.mem_filter]

/-- C6: for every Enrollment Reconciler call, with `requested` the
resolved-and-filtered candidate ids and `current` the target group's
enrollment, every requested recipient lands in exactly one of
`to_add`/`to_keep`, `to_remove` is exactly `current − requested`, and the
three buckets are pairwise disjoint. -/
theorem reconciler_buckets (db : DB) (group_id course_id : Nat)
    (input : List String) (r : ReconcileResult)
    (hr : r = set_recipients_usernames_entered db group_id course_id input) :
    (∀ x ∈ r.requested, (x ∈ r.to_add ∧ x ∉ r.to_keep) ∨ (x ∈ r.to_keep ∧ x ∉ r.to_add)) ∧
    (∀ x, x ∈ r.to_remove ↔ x ∈ r.current ∧ x ∉ r.requested) ∧
    (∀ x, ¬(x ∈ r.to_add ∧ x ∈ r.to_remove)) ∧
    (∀ x, ¬(x ∈ r.to_add ∧ x ∈ r.to_keep)) ∧
    (∀ x, ¬(x ∈ r.to_keep ∧ x ∈ r.to_remove)) := by
  subst hr
  simp only [set_recipients_usernames_entered]
  refine ⟨?_, ?_, ?_, ?_, ?_⟩
  · intro x hx
    by_cases hc : x ∈ current_student_ids db group_id
    · exact Or.inr ⟨mem_ids_to_keep.mpr ⟨hc, hx⟩,
        fun h => (mem_ids_to_add.mp h).2 hc⟩
    · exact Or.inl ⟨mem_ids_to_add.mpr ⟨hx, hc⟩,
        fun h => hc (mem_ids_to_keep.mp h).1⟩
  · intro x
    exact mem_ids_to_remove
  · intro x h
    exact (mem_ids_to_add.mp h.1).2 (mem_ids_to_remove.mp h.2).1
  · intro x h
    exact (mem_ids_to_add.mp h.1).2 (mem_ids_to_keep.mp h.2).1
  · intro x h
    exact (mem_ids_to_remove.mp h.2).2 (mem_ids_to_keep.mp h.1).2

theorem reconciler_buckets_witness :
    RW2 = set_recipients_usernames_entered DB2 1 1 ["bob", "carol"] ∧
    ((∀ x ∈ RW2.requested, (x ∈ RW2.to_add ∧ x ∉ RW2.to_keep) ∨ (x ∈ RW2.to_keep ∧ x ∉ RW2.to_add)) ∧
    (∀ x, x ∈ RW2.to_remove ↔ x ∈ RW2.current ∧ x ∉ RW2.requested) ∧
    (∀ x, ¬(x ∈ RW2.to_add ∧ x ∈ RW2.to_remove)) ∧
    (∀ x, ¬(x ∈ RW2.to_add ∧ x ∈ RW2.to_keep)) ∧
    (∀ x, ¬(x ∈ RW2.to_keep ∧ x ∈ RW2.to_remove))) :=
  ⟨rfl, reconciler_buckets DB2 1 1 ["bob", "carol"] RW2 rfl⟩

theorem groups_after_set (db : DB) (gid cid : Nat) (input : List String) :
    (set_recipients_usernames_entered db gid cid input).db.groups = db.groups := rfl

theorem mem_map_mk_group_student {gid : Nat} {L : List Nat} {gs : GroupStudent} :
    gs ∈ L.map (fun sid => ({ group_id := gid, student_id := sid } : GroupStudent)) ↔
      gs.group_id = gid ∧ gs.student_id ∈ L := by
  cases gs with
  | mk g s =>
    simp only [List.mem_map, GroupStudent.mk.injEq]
    constructor
    · rintro ⟨sid, hsid, hg, hs⟩
      exact ⟨hg.symm, hs ▸ hsid⟩
    · rintro ⟨rfl, hs⟩
      exact ⟨s, hs, rfl, rfl⟩

theorem mem_group_students_after_set {db : DB} {gid cid : Nat}
    {input : List String} {gs : GroupStudent} :
    gs ∈ (set_recipients_usernames_entered db gid cid input).db.group_students ↔
      (gs ∈ db.group_students ∧
        ¬(gs.group_id = gid ∧
          gs.student_id ∈ ids_to_remove db gid (usernames_to_process db gid cid input))) ∨
      (gs.group_id = gid ∧
        gs.student_id ∈ ids_to_add db gid (usernames_to_process db gid cid input)) := by
  simp only [set_recipients_usernames_entered, List.mem_append, List.mem_filter,
    mem_map_mk_group_student, Bool.not_eq_eq_eq_not, Bool.not_true, Bool.and_eq_false_iff,
    decide_eq_false_iff_not, Bool.not_eq_true, decide_eq_true_eq]
  constructor
  · rintro (⟨hmem, h⟩ | h)
    · refine Or.inl ⟨hmem, ?_⟩
      rintro ⟨h1, h2⟩
      rcases h with h | h
      · exact h h1
      · exact h h2
    · exact Or.inr h
  · rintro (⟨hmem, h⟩ | h)
    · refine Or.inl ⟨hmem, ?_⟩
      by_cases h1 : gs.group_id = gid
      · exact Or.inr (fun h2 => h ⟨h1, h2⟩)
      · exact Or.inl h1
    · exact Or.inr h

/-- Candidates surviving the conflict filter (existing or freshly created)
have no enrollment in another group of the target course. -/
theorem new_student_ids_no_conflict {db : DB} {gid cid : Nat} {input : List String}
    (hwf : WF db) :
    ∀ sid ∈ new_student_ids db (usernames_to_process db gid cid input),
      hasConflict db cid gid sid = false := by
  intro sid hsid
  by_contra hcf
  rw [Bool.not_eq_false] at hcf
  rw [new_student_ids, List.mem_append] at hsid
  rcases hsid with hex | hcr
  · rw [List.mem_map] at hex
    obtain ⟨s, hs, rfl⟩ := hex
    rw [existing_students, List.mem_filter, decide_eq_true_eq] at hs
    obtain ⟨hsdb, hname⟩ := hs
    rw [usernames_to_process, List.mem_filter, decide_eq_true_eq] at hname
    obtain ⟨hin, hnc⟩ := hname
    apply hnc
    rw [students_in_conflict]
    exact List.mem_map_of_mem _
      (List.mem_filter.mpr ⟨List.mem_filter.mpr ⟨hsdb, by simpa using hin⟩, hcf⟩)
  · rw [List.mem_map] at hcr
    obtain ⟨s, hs, rfl⟩ := hcr
    rw [created_students, List.mem_map] at hs
    obtain ⟨p, _, rfl⟩ := hs
    rw [hasConflict, List.any_eq_true] at hcf
    obtain ⟨l, hl, hpred⟩ := hcf
    simp only [Bool.and_eq_true, decide_eq_true_eq] at hpred
    obtain ⟨st, hst, hstid⟩ := hwf.2.2.2.2 l hl
    have hlt := hwf.2.2.2.1 st hst
    have := hpred.1.1
    omega

/-- If a student has no enrollment conflict for the target group's course,
then any of their enrollments inside that course is the target group itself.
`grow` is the target group's row. -/
theorem no_conflict_same_group {db : DB} {gid cid sid : Nat}
    (hconf : hasConflict db cid gid sid = false)
    {l : GroupStudent} (hl : l ∈ db.group_students) (hlsid : l.student_id = sid)
    {g : Group} (hb : g ∈ db.groups) (hbid : g.id = l.group_id)
    (hgc : g.course_id = cid) :
    l.group_id = gid := by
  by_contra hne
  have : hasConflict db cid gid sid = true := by
    rw [hasConflict, List.any_eq_true]
    refine ⟨l, hl, ?_⟩
    simp only [Bool.and_eq_true, decide_eq_true_eq]
    refine ⟨⟨hlsid, hne⟩, ?_⟩
    rw [inCourse, List.any_eq_true]
    exact ⟨g, hb, by simp [hbid, hgc]⟩
  rw [hconf] at this
  exact Bool.false_ne_true this

theorem set_recipients_preserves_one_group_per_course
    (db : DB) (gid cid : Nat) (input : List String)
    (hwf : WF db) (hinv : OneGroupPerCourse db)
    (hg : ∃ g ∈ db.groups, g.id = gid ∧ g.course_id = cid) :
    OneGroupPerCourse (set_recipients_usernames_entered db gid cid input).db := by
  obtain ⟨grow, hgrow, hgrowid, hgrowc⟩ := hg
  have hnodup : (db.groups.map Group.id).Nodup := hwf.1
  intro gs1 h1 gs2 h2 hsid g1 hg1 hg1id g2 hg2 hg2id hcourse
  rw [groups_after_set] at hg1 hg2
  rw [mem_group_students_after_set] at h1 h2
  have course_of_target : ∀ {g : Group}, g ∈ db.groups → g.id = gid → g.course_id = cid := by
    intro g hgmem hgid
    have : g = grow :=
      List.inj_on_of_nodup_map hnodup hgmem hgrow (by rw [hgid, hgrowid])
    rw [this, hgrowc]
  rcases h1 with ⟨h1m, _⟩ | ⟨h1g, h1a⟩
  · rcases h2 with ⟨h2m, _⟩ | ⟨h2g, h2a⟩
    · exact hinv gs1 h1m gs2 h2m hsid g1 hg1 hg1id g2 hg2 hg2id hcourse
    · -- gs2 was added; gs1 is an old link of the same student
      have hc2 : g2.course_id = cid := course_of_target hg2 (by rw [hg2id, h2g])
      have hc1 : g1.course_id = cid := by rw [hcourse, hc2]
      have hconf := new_student_ids_no_conflict hwf gs2.student_id
        (mem_ids_to_add.mp h2a).1
      have := no_conflict_same_group hconf h1m
        hsid hg1 hg1id hc1
      rw [this, h2g]
  · rcases h2 with ⟨h2m, _⟩ | ⟨h2g, _⟩
    · -- gs1 was added; gs2 is an old link of the same student
      have hc1 : g1.course_id = cid := course_of_target hg1 (by rw [hg1id, h1g])
      have hc2 : g2.course_id = cid := by rw [← hcourse, hc1]
      have hconf := new_student_ids_no_conflict hwf gs1.student_id
        (mem_ids_to_add.mp h1a).1
      have := no_conflict_same_group hconf h2m
        hsid.symm hg2 hg2id hc2
      rw [this, h1g]
    · rw [h1g, h2g]

theorem add_recipient_preserves_one_group_per_course
    (db : DB) (gid cid : Nat) (username : String)
    (hwf : WF db) (hinv : OneGroupPerCourse db)
    (hg : ∃ g ∈ db.groups, g.id = gid ∧ g.course_id = cid) :
    OneGroupPerCourse (add_recipient_username_entered db gid cid username).1 := by
  obtain ⟨grow, hgrow, hgrowid, hgrowc⟩ := hg
  have hnodup : (db.groups.map Group.id).Nodup := hwf.1
  have course_of_target : ∀ {g : Group}, g ∈ db.groups → g.id = gid → g.course_id = cid := by
    intro g hgmem hgid
    have : g = grow :=
      List.inj_on_of_nodup_map hnodup hgmem hgrow (by rw [hgid, hgrowid])
    rw [this, hgrowc]
  unfold add_recipient_username_entered
  cases hfind : db.students.find? (fun s => decide (s.tg_username = username)) with
  | none =>
    -- fresh student id: cannot occur in any existing link
    intro gs1 h1 gs2 h2 hsid g1 hg1 hg1id g2 hg2 hg2id hcourse
    simp only [List.mem_append, List.mem_singleton] at h1 h2
    rcases h1 with h1 | h1 <;> rcases h2 with h2 | h2
    · exact hinv gs1 h1 gs2 h2 hsid g1 hg1 hg1id g2 hg2 hg2id hcourse
    · exfalso
      obtain ⟨st, hst, hstid⟩ := hwf.2.2.2.2 gs1 h1
      have := hwf.2.2.2.1 st hst
      rw [h2] at hsid
      simp only [] at hsid
      omega
    · exfalso
      obtain ⟨st, hst, hstid⟩ := hwf.2.2.2.2 gs2 h2
      have := hwf.2.2.2.1 st hst
      rw [h1] at hsid
      simp only [] at hsid
      omega
    · rw [h1, h2]
  | some student =>
    by_cases halready : db.group_students.any (fun gs =>
        decide (gs.group_id = gid) && decide (gs.student_id = student.id)) = true
    · simp only [halready, if_true]
      exact hinv
    · rw [Bool.not_eq_true] at halready
      by_cases hconf : hasConflict db cid gid student.id = true
      · simp only [halready, Bool.false_eq_true, if_false, hconf, if_true]
        exact hinv
      · rw [Bool.not_eq_true] at hconf
        simp only [halready, Bool.false_eq_true, if_false, hconf]
        intro gs1 h1 gs2 h2 hsid g1 hg1 hg1id g2 hg2 hg2id hcourse
        simp only [List.mem_append, List.mem_singleton] at h1 h2
        rcases h1 with h1 | h1 <;> rcases h2 with h2 | h2
        · exact hinv gs1 h1 gs2 h2 hsid g1 hg1 hg1id g2 hg2 hg2id hcourse
        · have h2g : gs2.group_id = gid := by rw [h2]
          have h2s : gs2.student_id = student.id := by rw [h2]
          have hc2 : g2.course_id = cid := course_of_target hg2 (by rw [hg2id, h2g])
          have hc1 : g1.course_id = cid := by rw [hcourse, hc2]
          have := no_conflict_same_group hconf h1
            (by rw [hsid, h2s]) hg1 hg1id hc1
          rw [this, h2g]
        · have h1g : gs1.group_id = gid := by rw [h1]
          have h1s : gs1.student_id = student.id := by rw [h1]
          have hc1 : g1.course_id = cid := course_of_target hg1 (by rw [hg1id, h1g])
          have hc2 : g2.course_id = cid := by rw [← hcourse, hc1]
          have := no_conflict_same_group hconf h2
            (by rw [← hsid, h1s]) hg2 hg2id hc2
          rw [this, h1g]
        · rw [h1, h2]

theorem delete_recipient_preserves_one_group_per_course
    (db : DB) (gid sid : Nat) (hinv : OneGroupPerCourse db) :
    OneGroupPerCourse (delete_recipient_student_selected db gid sid).1 := by
  intro gs1 h1 gs2 h2 hsid g1 hg1 hg1id g2 hg2 hg2id hcourse
  exact hinv gs1 (List.mem_of_mem_filter h1) gs2 (List.mem_of_mem_filter h2)
    hsid g1 hg1 hg1id g2 hg2 hg2id hcourse

/-- C2: the one-group-per-course invariant is preserved by the bulk
reconciliation, by single add and by single delete; a conflicting candidate
is reported as ignored by the bulk operation, enrollments outside the target
group are never touched by it, and a conflicting single add is rejected with
a report and no mutation. -/
theorem enrollment_invariant_preserved (db : DB) (group_id course_id student_id : Nat)
    (input : List String) (username : String)
    (hwf : WF db) (hinv : OneGroupPerCourse db)
    (hg : ∃ g ∈ db.groups, g.id = group_id ∧ g.course_id = course_id) :
    OneGroupPerCourse (set_recipients_usernames_entered db group_id course_id input).db ∧
    OneGroupPerCourse (add_recipient_username_entered db group_id course_id username).1 ∧
    OneGroupPerCourse (delete_recipient_student_selected db group_id student_id).1 ∧
    (∀ s ∈ db.students, s.tg_username ∈ input →
      hasConflict db course_id group_id s.id = true →
      s.tg_username ∈ (set_recipients_usernames_entered db group_id course_id input).ignored) ∧
    (∀ gs ∈ db.group_students, gs.group_id ≠ group_id →
      gs ∈ (set_recipients_usernames_entered db group_id course_id input).db.group_students) ∧
    (∀ student, db.students.find? (fun s => decide (s.tg_username = username)) = some student →
      db.group_students.any (fun gs =>
        decide (gs.group_id = group_id) && decide (gs.student_id = student.id)) = false →
      hasConflict db course_id group_id student.id = true →
      add_recipient_username_entered db group_id course_id username = (db, .conflict)) := by
  refine ⟨set_recipients_preserves_one_group_per_course db group_id course_id input hwf hinv hg,
    add_recipient_preserves_one_group_per_course db group_id course_id username hwf hinv hg,
    delete_recipient_preserves_one_group_per_course db group_id student_id hinv,
    ?_, ?_, ?_⟩
  · intro s hs hin hcf
    show s.tg_username ∈ students_in_conflict db group_id course_id input
    rw [students_in_conflict]
    exact List.mem_map_of_mem _
      (List.mem_filter.mpr ⟨List.mem_filter.mpr ⟨hs, by simpa using hin⟩, hcf⟩)
  · intro gs hgs hne
    rw [mem_group_students_after_set]
    exact Or.inl ⟨hgs, fun h => hne h.1⟩
  · intro student hfind hnot hcf
    rw [add_recipient_username_entered, hfind]
    simp [hnot, hcf]

theorem enrollment_invariant_preserved_witness :
    WF DB2 ∧ OneGroupPerCourse DB2 ∧ (∃ g ∈ DB2.groups, g.id = 1 ∧ g.course_id = 1) ∧
    (OneGroupPerCourse (set_recipients_usernames_entered DB2 1 1 ["bob", "carol"]).db ∧
    OneGroupPerCourse (add_recipient_username_entered DB2 1 1 "bob").1 ∧
    OneGroupPerCourse (delete_recipient_student_selected DB2 1 1).1 ∧
    (∀ s ∈ DB2.students, s.tg_username ∈ ["bob", "carol"] →
      hasConflict DB2 1 1 s.id = true →
      s.tg_username ∈ (set_recipients_usernames_entered DB2 1 1 ["bob", "carol"]).ignored) ∧
    (∀ gs ∈ DB2.group_students, gs.group_id ≠ 1 →
      gs ∈ (set_recipients_usernames_entered DB2 1 1 ["bob", "carol"]).db.group_students) ∧
    (∀ student, DB2.students.find? (fun s => decide (s.tg_username = "bob")) = some student →
      DB2.group_students.any (fun gs =>
        decide (gs.group_id = 1) && decide (gs.student_id = student.id)) = false →
      hasConflict DB2 1 1 student.id = true →
      add_recipient_username_entered DB2 1 1 "bob" = (DB2, .conflict))) :=
  ⟨by decide, by decide, by decide,
    enrollment_invariant_preserved DB2 1 1 1 ["bob", "carol"] "bob"
      (by decide) (by decide) (by decide)⟩

theorem set_db_students (db : DB) (gid cid : Nat) (input : List String) :
    (set_recipients_usernames_entered db gid cid input).db.students =
      db.students ++ created_students db (usernames_to_process db gid cid input) := rfl

theorem inCourse_after_set (db : DB) (gid cid : Nat) (input : List String)
    (g c : Nat) :
    inCourse (set_recipients_usernames_entered db gid cid input).db g c =
      inCourse db g c := rfl

theorem mem_current_student_ids {db : DB} {gid x : Nat} :
    x ∈ current_student_ids db gid ↔
      ∃ gs ∈ db.group_students, gs.group_id = gid ∧ gs.student_id = x := by
  simp only [current_student_ids, List.mem_map, List.mem_filter, decide_eq_true_eq]
  constructor
  · rintro ⟨gs, ⟨hgs, hgid⟩, hx⟩
    exact ⟨gs, hgs, hgid, hx⟩
  · rintro ⟨gs, hgs, hgid, hx⟩
    exact ⟨gs, ⟨hgs, hgid⟩, hx⟩

/-- The reconciliation only rewrites links of the target group, so the
conflict check for the target group is unchanged by it. -/
theorem hasConflict_after_set (db : DB) (gid cid : Nat) (input : List String)
    (sid : Nat) :
    hasConflict (set_recipients_usernames_entered db gid cid input).db cid gid sid =
      hasConflict db cid gid sid := by
  rw [Bool.eq_iff_iff]
  rw [hasConflict, hasConflict, List.any_eq_true, List.any_eq_true]
  constructor
  · rintro ⟨l, hl, hp⟩
    rcases mem_group_students_after_set.mp hl with ⟨hold, _⟩ | ⟨hgidl, _⟩
    · refine ⟨l, hold, ?_⟩
      rw [inCourse_after_set] at hp
      exact hp
    · exfalso
      simp only [Bool.and_eq_true, decide_eq_true_eq] at hp
      exact hp.1.2 hgidl
  · rintro ⟨l, hl, hp⟩
    have hne : l.group_id ≠ gid := by
      simp only [Bool.and_eq_true, decide_eq_true_eq] at hp
      exact hp.1.2
    refine ⟨l, mem_group_students_after_set.mpr (Or.inl ⟨hl, fun h => hne h.1⟩), ?_⟩
    rw [inCourse_after_set]
    exact hp

/-- A student id at or above the autoincrement counter occurs in no
enrollment link of a well-formed database. -/
theorem hasConflict_fresh (db : DB) {cid gid sid : Nat} (hwf : WF db)
    (hge : db.next_student_id ≤ sid) :
    hasConflict db cid gid sid = false := by
  rw [Bool.eq_false_iff]
  intro h
  rw [hasConflict, List.any_eq_true] at h
  obtain ⟨l, hl, hp⟩ := h
  simp only [Bool.and_eq_true, decide_eq_true_eq] at hp
  obtain ⟨st, hst, hstid⟩ := hwf.2.2.2.2 l hl
  have := hwf.2.2.2.1 st hst
  have := hp.1.1
  omega

theorem created_id_ge {db : DB} {names : List String} {s : Student}
    (hs : s ∈ created_students db names) : db.next_student_id ≤ s.id := by
  rw [created_students, List.mem_map] at hs
  obtain ⟨p, _, rfl⟩ := hs
  exact Nat.le_add_right _ _

theorem created_map_username (db : DB) (names : List String) :
    (created_students db names).map Student.tg_username =
      usernames_to_create db names := by
  rw [created_students, List.map_map]
  have : (Student.tg_username ∘ fun p : Nat × String =>
      ({ id := db.next_student_id + p.1, tg_username := p.2, tg_user_id := none } : Student)) =
      Prod.snd := by
    funext p
    rfl
  rw [this, List.enum_map_snd]

theorem created_mem_names {db : DB} {names : List String} {s : Student}
    (hs : s ∈ created_students db names) : s.tg_username ∈ names := by
  have h1 : s.tg_username ∈ (created_students db names).map Student.tg_username :=
    List.mem_map_of_mem _ hs
  rw [created_map_username] at h1
  exact List.mem_of_mem_filter h1

theorem students_in_conflict_after_set (db : DB) (gid cid : Nat)
    (input : List String) (hwf : WF db) :
    students_in_conflict (set_recipients_usernames_entered db gid cid input).db gid cid input =
      students_in_conflict db gid cid input := by
  rw [students_in_conflict, students_in_conflict, set_db_students,
    List.filter_append, List.filter_append, List.map_append]
  have h2 : ((created_students db (usernames_to_process db gid cid input)).filter
      (fun s => decide (s.tg_username ∈ input))).filter
      (fun s => hasConflict (set_recipients_usernames_entered db gid cid input).db cid gid s.id)
      = [] := by
    rw [List.filter_eq_nil_iff]
    intro s hs
    have hs' := List.mem_of_mem_filter hs
    have hge := created_id_ge hs'
    rw [hasConflict_after_set, hasConflict_fresh db hwf hge]
    exact Bool.false_ne_true
  rw [h2, List.map_nil, List.append_nil]
  congr 1
  apply List.filter_congr
  intro s _
  rw [hasConflict_after_set]

theorem usernames_to_process_after_set (db : DB) (gid cid : Nat)
    (input : List String) (hwf : WF db) :
    usernames_to_process (set_recipients_usernames_entered db gid cid input).db gid cid input =
      usernames_to_process db gid cid input := by
  rw [usernames_to_process, usernames_to_process]
  simp only [students_in_conflict_after_set db gid cid input hwf]

theorem existing_students_after_set (db : DB) (gid cid : Nat) (input : List String) :
    existing_students (set_recipients_usernames_entered db gid cid input).db
        (usernames_to_process db gid cid input) =
      existing_students db (usernames_to_process db gid cid input) ++
        created_students db (usernames_to_process db gid cid input) := by
  rw [existing_students, set_db_students, List.filter_append, existing_students]
  congr 1
  rw [List.filter_eq_self]
  intro s hs
  simpa using created_mem_names hs

theorem usernames_to_create_after_set (db : DB) (gid cid : Nat) (input : List String) :
    usernames_to_create (set_recipients_usernames_entered db gid cid input).db
      (usernames_to_process db gid cid input) = [] := by
  rw [usernames_to_create, List.filter_eq_nil_iff]
  intro u hu hcon
  rw [decide_eq_true_eq] at hcon
  apply hcon
  rw [existing_students_after_set, List.map_append, List.mem_append, created_map_username]
  by_cases hf : u ∈ (existing_students db (usernames_to_process db gid cid input)).map
      Student.tg_username
  · exact Or.inl hf
  · exact Or.inr (List.mem_filter.mpr ⟨hu, by simpa using hf⟩)

theorem created_students_after_set (db : DB) (gid cid : Nat) (input : List String) :
    created_students (set_recipients_usernames_entered db gid cid input).db
      (usernames_to_process db gid cid input) = [] := by
  rw [created_students, usernames_to_create_after_set]
  rfl

theorem new_student_ids_after_set (db : DB) (gid cid : Nat) (input : List String) :
    new_student_ids (set_recipients_usernames_entered db gid cid input).db
        (usernames_to_process db gid cid input) =
      new_student_ids db (usernames_to_process db gid cid input) := by
  rw [new_student_ids, new_student_ids, existing_students_after_set,
    created_students_after_set, List.map_append, List.map_nil, List.append_nil]

theorem mem_current_after_set (db : DB) (gid cid : Nat) (input : List String) {x : Nat} :
    x ∈ current_student_ids (set_recipients_usernames_entered db gid cid input).db gid ↔
      x ∈ new_student_ids db (usernames_to_process db gid cid input) := by
  constructor
  · intro hx
    obtain ⟨gs, hgs, hgid, hsid⟩ := mem_current_student_ids.mp hx
    rcases mem_group_students_after_set.mp hgs with ⟨hold, hnr⟩ | ⟨_, hadd⟩
    · have hc : x ∈ current_student_ids db gid :=
        mem_current_student_ids.mpr ⟨gs, hold, hgid, hsid⟩
      by_cases hn : x ∈ new_student_ids db (usernames_to_process db gid cid input)
      · exact hn
      · exact absurd (mem_ids_to_remove.mpr ⟨hc, hn⟩) (fun hr => hnr ⟨hgid, hsid ▸ hr⟩)
    · exact (mem_ids_to_add.mp (hsid ▸ hadd)).1
  · intro hx
    by_cases hc : x ∈ current_student_ids db gid
    · obtain ⟨gs, hgs, hgid, hsid⟩ := mem_current_student_ids.mp hc
      refine mem_current_student_ids.mpr
        ⟨gs, mem_group_students_after_set.mpr (Or.inl ⟨hgs, ?_⟩), hgid, hsid⟩
      rintro ⟨_, hr⟩
      exact (mem_ids_to_remove.mp (hsid ▸ hr)).2 hx
    · exact mem_current_student_ids.mpr
        ⟨{ group_id := gid, student_id := x },
          mem_group_students_after_set.mpr (Or.inr ⟨rfl, mem_ids_to_add.mpr ⟨hx, hc⟩⟩),
          rfl, rfl⟩

theorem set_to_add (db : DB) (gid cid : Nat) (input : List String) :
    (set_recipients_usernames_entered db gid cid input).to_add =
      ids_to_add db gid (usernames_to_process db gid cid input) := rfl

theorem set_to_remove (db : DB) (gid cid : Nat) (input : List String) :
    (set_recipients_usernames_entered db gid cid input).to_remove =
      ids_to_remove db gid (usernames_to_process db gid cid input) := rfl

theorem set_to_keep (db : DB) (gid cid : Nat) (input : List String) :
    (set_recipients_usernames_entered db gid cid input).to_keep =
      ids_to_keep db gid (usernames_to_process db gid cid input) := rfl

theorem set_requested (db : DB) (gid cid : Nat) (input : List String) :
    (set_recipients_usernames_entered db gid cid input).requested =
      new_student_ids db (usernames_to_process db gid cid input) := rfl

/-- A reconciliation whose buckets are all empty and which creates no
students does not change the database. -/
theorem set_recipients_db_noop {db : DB} {gid cid : Nat} {input : List String}
    (hcre : created_students db (usernames_to_process db gid cid input) = [])
    (huc : usernames_to_create db (usernames_to_process db gid cid input) = [])
    (hadd : ids_to_add db gid (usernames_to_process db gid cid input) = [])
    (hrem : ids_to_remove db gid (usernames_to_process db gid cid input) = []) :
    (set_recipients_usernames_entered db gid cid input).db = db := by
  simp only [set_recipients_usernames_entered, hcre, huc, hadd, hrem,
    List.append_nil, List.length_nil, Nat.add_zero, List.map_nil]
  have hpred : (fun gs : GroupStudent =>
      !(decide (gs.group_id = gid) && decide (gs.student_id ∈ ([] : List Nat)))) =
      fun _ => true := by
    funext gs
    simp
  rw [hpred, List.filter_true]

/-- C7: reconciling twice in a row with the same candidate set is idempotent:
the second call computes empty `to_add` and `to_remove` buckets, keeps
exactly the requested candidates, and leaves the database unchanged. -/
theorem reconcile_idempotent (db : DB) (group_id course_id : Nat)
    (input : List String) (hwf : WF db) (r1 r2 : ReconcileResult)
    (h1 : r1 = set_recipients_usernames_entered db group_id course_id input)
    (h2 : r2 = set_recipients_usernames_entered r1.db group_id course_id input) :
    r2.to_add = [] ∧ r2.to_remove = [] ∧
    (∀ x, x ∈ r2.to_keep ↔ x ∈ r2.requested) ∧ r2.db = r1.db := by
  subst h1 h2
  have hproc := usernames_to_process_after_set db group_id course_id input hwf
  have hadd2 : ids_to_add (set_recipients_usernames_entered db group_id course_id input).db
      group_id (usernames_to_process db group_id course_id input) = [] := by
    rw [ids_to_add, new_student_ids_after_set, List.filter_eq_nil_iff]
    intro x hx hcon
    rw [decide_eq_true_eq] at hcon
    exact hcon ((mem_current_after_set db group_id course_id input).mpr hx)
  have hrem2 : ids_to_remove (set_recipients_usernames_entered db group_id course_id input).db
      group_id (usernames_to_process db group_id course_id input) = [] := by
    rw [ids_to_remove, List.filter_eq_nil_iff]
    intro x hx hcon
    rw [decide_eq_true_eq] at hcon
    apply hcon
    rw [new_student_ids_after_set]
    exact (mem_current_after_set db group_id course_id input).mp hx
  refine ⟨?_, ?_, ?_, ?_⟩
  · rw [set_to_add, hproc]
    exact hadd2
  · rw [set_to_remove, hproc]
    exact hrem2
  · intro x
    rw [set_to_keep, set_requested, hproc, mem_ids_to_keep]
    constructor
    · exact fun h => h.2
    · intro h
      refine ⟨?_, h⟩
      rw [new_student_ids_after_set] at h
      exact (mem_current_after_set db group_id course_id input).mpr h
  · apply set_recipients_db_noop
    · rw [hproc]
      exact created_students_after_set db group_id course_id input
    · rw [hproc]
      exact usernames_to_create_after_set db group_id course_id input
    · rw [hproc]
      exact hadd2
    · rw [hproc]
      exact hrem2

theorem reconcile_idempotent_witness :
    WF DB2 ∧
    ((set_recipients_usernames_entered RW2.db 1 1 ["bob", "carol"]).to_add = [] ∧
    (set_recipients_usernames_entered RW2.db 1 1 ["bob", "carol"]).to_remove = [] ∧
    (∀ x, x ∈ (set_recipients_usernames_entered RW2.db 1 1 ["bob", "carol"]).to_keep ↔
      x ∈ (set_recipients_usernames_entered RW2.db 1 1 ["bob", "carol"]).requested) ∧
    (set_recipients_usernames_entered RW2.db 1 1 ["bob", "carol"]).db = RW2.db) :=
  ⟨by decide,
    reconcile_idempotent DB2 1 1 ["bob", "carol"] (by decide) RW2 _ rfl rfl⟩

/-- C1 counterexample: in `DB1` the group's only enrolled recipient is
unreachable, yet the dispatch does not abort — it proceeds, performs zero
sends, and reports a completed summary.  The claimed third precondition
("at least one enrolled Recipient is reachable") is never validated. -/
theorem send_now_reachability_not_validated_cex :
    reachable_students (students_of_group DB1 1) = [] ∧
    students_of_group DB1 1 ≠ [] ∧
    send_now_survey_selected DB1 (some 1) 1 (fun _ => true) (fun _ => {}) =
      .dispatched { survey_title := "T1", successful_sends := 0, student_count := 0,
                    unreachable_count := 1, results := [] } :=
  ⟨rfl, by decide, rfl⟩

/-- C1 amended: two preconditions are validated and abort the dispatch with
a report before any send — the group must have students (checked at group
selection, along with the existence of surveys with questions) and the
selected survey must have questions (checked at survey selection).  The
reachability of at least one recipient is not a validated precondition:
once the validated checks pass, the dispatch proceeds over exactly the
reachable students, performing no sends when none is reachable. -/
theorem send_now_validated_preconditions (db : DB) (group_id survey_id : Nat)
    (sendOk : Nat → Bool) (ctxOf : Student → FSMContext) :
    (students_of_group db group_id = [] →
      ∃ m, send_now_group_selected db group_id = .abort m) ∧
    (questions_of_survey db survey_id = [] →
      ∃ m, send_now_survey_selected db (some group_id) survey_id sendOk ctxOf = .abort m) ∧
    (∀ survey, db.surveys.find? (fun sv => decide (sv.id = survey_id)) = some survey →
      survey.group_id = group_id →
      ∀ q qs, questions_of_survey db survey_id = q :: qs →
      send_now_survey_selected db (some group_id) survey_id sendOk ctxOf =
        .dispatched
          { survey_title := survey.title,
            successful_sends := (((reachable_students (students_of_group db group_id)).map
              (fun s => (s, initiate_survey_for_student db s q survey_id
                (sendOk s.id) (ctxOf s)))).filter (fun r => r.2.1)).length,
            student_count := (reachable_students (students_of_group db group_id)).length,
            unreachable_count := (students_of_group db group_id).length -
              (reachable_students (students_of_group db group_id)).length,
            results := (reachable_students (students_of_group db group_id)).map
              (fun s => (s, initiate_survey_for_student db s q survey_id
                (sendOk s.id) (ctxOf s))) }) := by
  refine ⟨?_, ?_, ?_⟩
  · intro hst
    rw [send_now_group_selected]
    cases hrow : groupRow db group_id with
    | none => exact ⟨_, rfl⟩
    | some group =>
      simp only []
      split_ifs with h1 h2 h3
      · exact ⟨_, rfl⟩
      · exact ⟨_, rfl⟩
      · exact ⟨_, rfl⟩
      · exact absurd (by rw [hst]; rfl) h3
  · intro hq
    rw [send_now_survey_selected]
    cases hfind : db.surveys.find? (fun sv => decide (sv.id = survey_id)) with
    | none => exact ⟨_, rfl⟩
    | some survey =>
      simp only [hq]
      split_ifs with h1
      · exact ⟨_, rfl⟩
      · exact ⟨_, rfl⟩
  · intro survey hfind hgm q qs hq
    rw [send_now_survey_selected, hfind]
    simp only [hq, hgm]
    rw [if_neg (by simp)]

theorem send_now_validated_preconditions_witness :
    (students_of_group DB1 2 = [] ∧
      ∃ m, send_now_group_selected DB1 2 = .abort m) ∧
    (questions_of_survey DB4 1 = [] ∧
      ∃ m, send_now_survey_selected DB4 (some 1) 1 (fun _ => true) (fun _ => {}) = .abort m) :=
  ⟨⟨rfl, (send_now_validated_preconditions DB1 2 1 (fun _ => true) (fun _ => {})).1 rfl⟩,
   ⟨rfl, (send_now_validated_preconditions DB4 1 1 (fun _ => true) (fun _ => {})).2.1 rfl⟩⟩

theorem length_filterMap_of_isSome {α β : Type} (f : α → Option β) :
    ∀ l : List α, (∀ a ∈ l, (f a).isSome) → (l.filterMap f).length = l.length := by
  intro l
  induction l with
  | nil => intro _; rfl
  | cons a t ih =>
    intro h
    rw [List.filterMap_cons]
    cases hfa : f a with
    | none => exact absurd (h a (List.mem_cons_self a t)) (by simp [hfa])
    | some b =>
      simp only [List.length_cons, ih (fun x hx => h x (List.mem_cons_of_mem a hx))]

theorem filter_not_length {α : Type} (l : List α) (p : α → Bool) :
    l.length - (l.filter p).length = (l.filter (fun a => !p a)).length := by
  induction l with
  | nil => rfl
  | cons a t ih =>
    have hle : (t.filter p).length ≤ t.length := t.length_filter_le p
    cases ha : p a <;> simp [List.filter_cons, ha] <;> omega

/-- The join returns one student row per enrollment link of the group when
every link references an existing student. -/
theorem students_of_group_length (db : DB) (gid : Nat) (hwf : WF db) :
    (students_of_group db gid).length =
      (db.group_students.filter (fun gs => decide (gs.group_id = gid))).length := by
  rw [students_of_group]
  apply length_filterMap_of_isSome
  intro gs hgs
  have hgs' := List.mem_of_mem_filter hgs
  obtain ⟨s, hs, hsid⟩ := hwf.2.2.2.2 gs hgs'
  rw [List.find?_isSome]
  exact ⟨s, hs, by simp [hsid]⟩

/-- C5: for every completed dispatch, delivered + failed + unreachable
equals the enrollment size of the group; the unreachable count is the number
of enrolled students without a channel identity, and the reported failure
count is the number of reachable students whose send attempt did not
succeed. -/
theorem dispatch_summary_counts (db : DB) (group_id survey_id : Nat)
    (sendOk : Nat → Bool) (ctxOf : Student → FSMContext) (rep : DispatchReport)
    (hwf : WF db)
    (hd : send_now_survey_selected db (some group_id) survey_id sendOk ctxOf =
      .dispatched rep) :
    rep.successful_sends + (rep.student_count - rep.successful_sends) +
        rep.unreachable_count =
      (db.group_students.filter (fun gs => decide (gs.group_id = group_id))).length ∧
    rep.unreachable_count =
      ((students_of_group db group_id).filter (fun s => !s.tg_user_id.isSome)).length ∧
    rep.student_count - rep.successful_sends =
      (rep.results.filter (fun r => !r.2.1)).length := by
  simp only [send_now_survey_selected] at hd
  split at hd
  · exact absurd hd (by simp)
  · split at hd
    · exact absurd hd (by simp)
    · split at hd
      · exact absurd hd (by simp)
      · rename_i survey hfind hgm q qs hq
        simp only [SendNowSurveyOutcome.dispatched.injEq] at hd
        subst hd
        have hlen := students_of_group_length db group_id hwf
        have hreach : (reachable_students (students_of_group db group_id)).length ≤
            (students_of_group db group_id).length :=
          (students_of_group db group_id).length_filter_le _
        have hresults : ((reachable_students (students_of_group db group_id)).map
            (fun s => (s, initiate_survey_for_student db s q survey_id
              (sendOk s.id) (ctxOf s)))).length =
            (reachable_students (students_of_group db group_id)).length :=
          List.length_map _ _
        have hsucc := filter_not_length ((reachable_students (students_of_group db group_id)).map
            (fun s => (s, initiate_survey_for_student db s q survey_id
              (sendOk s.id) (ctxOf s)))) (fun r => r.2.1)
        have hsle : (((reachable_students (students_of_group db group_id)).map
            (fun s => (s, initiate_survey_for_student db s q survey_id
              (sendOk s.id) (ctxOf s)))).filter (fun r => r.2.1)).length ≤
            (reachable_students (students_of_group db group_id)).length := by
          rw [← hresults]
          exact List.length_filter_le _ _
        have hunr := filter_not_length (students_of_group db group_id)
          (fun s => s.tg_user_id.isSome)
        refine ⟨?_, ?_, ?_⟩
        · dsimp only
          rw [← hlen]
          simp only [reachable_students] at hsle hreach ⊢
          omega
        · dsimp only
          simp only [reachable_students] at hunr ⊢
          omega
        · dsimp only
          rw [← hsucc, hresults]

theorem dispatch_summary_counts_witness :
    WF DB3 ∧
    send_now_survey_selected DB3 (some 1) 1 (fun _ => true) (fun _ => {}) =
      .dispatched REP3 ∧
    (REP3.successful_sends + (REP3.student_count - REP3.successful_sends) +
        REP3.unreachable_count =
      (DB3.group_students.filter (fun gs => decide (gs.group_id = 1))).length ∧
    REP3.unreachable_count =
      ((students_of_group DB3 1).filter (fun s => !s.tg_user_id.isSome)).length ∧
    REP3.student_count - REP3.successful_sends =
      (REP3.results.filter (fun r => !r.2.1)).length) :=
  ⟨by decide, rfl,
    dispatch_summary_counts DB3 1 1 (fun _ => true) (fun _ => {}) REP3 (by decide) rfl⟩

/-- Case analysis of `save_response`: either it fails for one of the four
reasons of the source (missing context keys, unresolvable non-anonymous
student, vanished question) and writes nothing, or it succeeds and appends
exactly the denormalized row the source builds. -/
theorem save_response_cases (db : DB) (data : FSMData) (user_id : Nat)
    (answer_text : String) :
    ((data.survey_id = none ∨ data.current_question_id = none ∨
      (db.students.find? (fun s => decide (s.tg_user_id = some user_id)) = none ∧
        data.is_anonymous.getD false = false) ∨
      (∃ question_id, data.current_question_id = some question_id ∧
        db.questions.find? (fun q => decide (q.id = question_id)) = none)) ∧
      save_response db data user_id answer_text = (db, false)) ∨
    (∃ survey_id question_id question,
      data.survey_id = some survey_id ∧
      data.current_question_id = some question_id ∧
      db.questions.find? (fun q => decide (q.id = question_id)) = some question ∧
      save_response db data user_id answer_text =
        ({ db with responses := db.responses ++
            [{ survey_id := survey_id,
               student_tg_id := if data.is_anonymous.getD false then 0 else user_id,
               student_tg_username := if data.is_anonymous.getD false then "Аноним"
                 else match db.students.find? (fun s => decide (s.tg_user_id = some user_id)) with
                   | some s => s.tg_username
                   | none => "[Unknown User ID: " ++ toString user_id ++ "]",
               course_name := data.course_name.getD "",
               group_name := data.group_name.getD "",
               survey_title := data.survey_title.getD "",
               question_text := question.text,
               question_type := data.question_type.getD question.q_type,
               answer := strip answer_text,
               session_id := data.session_id.getD "" }] }, true)) := by
  cases hsv : data.survey_id with
  | none =>
    refine Or.inl ⟨Or.inl rfl, ?_⟩
    rw [save_response, hsv]
  | some survey_id =>
    cases hq : data.current_question_id with
    | none =>
      refine Or.inl ⟨Or.inr (Or.inl rfl), ?_⟩
      rw [save_response, hsv, hq]
    | some question_id =>
      by_cases hguard : db.students.find? (fun s => decide (s.tg_user_id = some user_id)) = none ∧
          ¬(data.is_anonymous.getD false)
      · refine Or.inl ⟨Or.inr (Or.inr (Or.inl ⟨hguard.1, Bool.eq_false_iff.mpr hguard.2⟩)), ?_⟩
        rw [save_response, hsv, hq]
        dsimp only
        rw [if_pos hguard]
      · cases hfind : db.questions.find? (fun q => decide (q.id = question_id)) with
        | none =>
          refine Or.inl ⟨Or.inr (Or.inr (Or.inr ⟨question_id, rfl, hfind⟩)), ?_⟩
          rw [save_response, hsv, hq]
          dsimp only
          rw [if_neg hguard, hfind]
        | some question =>
          refine Or.inr ⟨survey_id, question_id, question, rfl, rfl, hfind, ?_⟩
          rw [save_response, hsv, hq]
          dsimp only
          rw [if_neg hguard, hfind]

/-- C8: during an anonymous session every persisted response carries the
sentinel `"Аноним"` in the identity field and `0` in the numeric channel-id
field — and the write succeeds whether or not the recipient's student row is
resolvable. -/
theorem anonymous_response_redaction (db : DB) (data : FSMData) (user_id : Nat)
    (answer_text : String) (hanon : data.is_anonymous = some true) :
    (∀ r ∈ (save_response db data user_id answer_text).1.responses,
      r ∈ db.responses ∨ (r.student_tg_username = "Аноним" ∧ r.student_tg_id = 0)) ∧
    (∀ survey_id question_id question,
      data.survey_id = some survey_id → data.current_question_id = some question_id →
      db.questions.find? (fun q => decide (q.id = question_id)) = some question →
      (save_response db data user_id answer_text).2 = true) := by
  have hgetD : data.is_anonymous.getD false = true := by rw [hanon]; rfl
  rcases save_response_cases db data user_id answer_text with ⟨_, heq⟩ |
    ⟨survey_id, question_id, question, hsv, hq, hfind, heq⟩
  · constructor
    · intro r hr
      rw [heq] at hr
      exact Or.inl hr
    · intro survey_id question_id question hsv hq hfind'
      rcases save_response_cases db data user_id answer_text with ⟨hreason, _⟩ |
        ⟨sid2, qid2, q2, _, _, _, heq2⟩
      · rcases hreason with h | h | h | ⟨qid, hqid, hnone⟩
        · rw [hsv] at h
          exact absurd h (by simp)
        · rw [hq] at h
          exact absurd h (by simp)
        · rw [hgetD] at h
          exact absurd h.2 (by simp)
        · rw [hq] at hqid
          cases hqid
          rw [hfind'] at hnone
          exact absurd hnone (by simp)
      · rw [heq2]
  · constructor
    · intro r hr
      rw [heq] at hr
      simp only [List.mem_append, List.mem_singleton] at hr
      rcases hr with hr | hr
      · exact Or.inl hr
      · right
        rw [hr, hgetD]
        exact ⟨rfl, rfl⟩
    · intro _ _ _ _ _ _
      rw [heq]

theorem anonymous_response_redaction_witness :
    anonData.is_anonymous = some true ∧
    ((∀ r ∈ (save_response DB1 anonData 999 "hello").1.responses,
      r ∈ DB1.responses ∨ (r.student_tg_username = "Аноним" ∧ r.student_tg_id = 0)) ∧
    (∀ survey_id question_id question,
      anonData.survey_id = some survey_id → anonData.current_question_id = some question_id →
      DB1.questions.find? (fun q => decide (q.id = question_id)) = some question →
      (save_response DB1 anonData 999 "hello").2 = true)) :=
  ⟨rfl, anonymous_response_redaction DB1 anonData 999 "hello" rfl⟩

/-- C10 (code bug): the skip button does persist the `"[SKIPPED]"` sentinel
and advance the session, but an explicit /skip command never does — the
message is dispatched to `handle_text_answer`, registered first and matching
`F.text`, whose command guard rejects it with the state kept, so no Response
row is written and the session does not advance; `handle_skip_command`
(whose body is the same save-then-advance composition as the button's) is
unreachable dead code. -/
theorem skip_command_routing_bug :
    answering_message_dispatch DB3 ctxFresh.data 100 (some "/skip") =
      some (DB3, .invalid_input_kept) ∧
    answering_message_dispatch DB3 ctxFresh.data 100 none = none ∧
    handle_skip_command DB3 ctxFresh.data 100 = handle_skip_button DB3 ctxFresh.data 100 ∧
    (handle_skip_button DB3 ctxFresh.data 100).1.responses.length =
      DB3.responses.length + 1 ∧
    (∀ r ∈ (handle_skip_button DB3 ctxFresh.data 100).1.responses,
      r.answer = "[SKIPPED]") ∧
    (handle_skip_button DB3 ctxFresh.data 100).2 = .advanced .completed := by
  decide

theorem range_map_succ (n : Nat) :
    (List.range n).map (fun i => i + 1) = List.range' 1 n := by
  rw [List.range'_eq_map_range]
  apply List.map_congr_left
  intro i _
  omega

/-- C9: finalize with an empty accumulated question list changes nothing
(the operator is informed, pre-existing rows stay); finalize with a
non-empty list performs a full replace in one step: afterwards the survey's
question rows are exactly the accumulated list with 1-based contiguous
orders, and other surveys' rows are untouched. -/
theorem finalize_full_replace_or_abort (db : DB) (data : AuthoringData) :
    (data.questions = [] → (save_questions_and_finish db data).1 = db) ∧
    (∀ survey_id, data.survey_id = some survey_id → data.questions = [] →
      save_questions_and_finish db data = (db, .empty_cancelled)) ∧
    (∀ survey_id, data.survey_id = some survey_id → data.questions ≠ [] →
      ((save_questions_and_finish db data).1.questions.filter
          (fun q => decide (q.survey_id = survey_id))) =
        data.questions.enum.map (fun p =>
          ({ id := db.next_question_id + p.1, survey_id := survey_id,
             text := p.2.2, q_type := p.2.1, order := p.1 + 1 } : Question)) ∧
      ((save_questions_and_finish db data).1.questions.filter
          (fun q => decide (q.survey_id ≠ survey_id))) =
        db.questions.filter (fun q => decide (q.survey_id ≠ survey_id)) ∧
      (((save_questions_and_finish db data).1.questions.filter
          (fun q => decide (q.survey_id = survey_id))).map Question.order) =
        List.range' 1 data.questions.length ∧
      (save_questions_and_finish db data).2 = .saved data.questions.length) := by
  refine ⟨?_, ?_, ?_⟩
  · intro hqs
    cases hsv : data.survey_id with
    | none => rw [save_questions_and_finish, hsv]
    | some survey_id =>
      rw [save_questions_and_finish, hsv]
      dsimp only
      rw [if_pos (by rw [hqs]; rfl)]
  · intro survey_id hsv hqs
    rw [save_questions_and_finish, hsv]
    dsimp only
    rw [if_pos (by rw [hqs]; rfl)]
  · intro survey_id hsv hne
    have hie : ¬(data.questions.isEmpty = true) := by
      cases hqs : data.questions with
      | nil => exact absurd hqs hne
      | cons a t => exact Bool.false_ne_true
    have heq : save_questions_and_finish db data =
        ({ db with
            questions := db.questions.filter (fun q => decide (q.survey_id ≠ survey_id)) ++
              data.questions.enum.map (fun p =>
                ({ id := db.next_question_id + p.1, survey_id := survey_id,
                   text := p.2.2, q_type := p.2.1, order := p.1 + 1 } : Question)),
            next_question_id := db.next_question_id + data.questions.length },
          .saved (data.questions.enum.map (fun p =>
            ({ id := db.next_question_id + p.1, survey_id := survey_id,
               text := p.2.2, q_type := p.2.1, order := p.1 + 1 } : Question))).length) := by
      rw [save_questions_and_finish, hsv]
      dsimp only
      rw [if_neg hie]
    have hrem_nil : ((db.questions.filter (fun q => decide (q.survey_id ≠ survey_id))).filter
        (fun q => decide (q.survey_id = survey_id))) = [] := by
      rw [List.filter_eq_nil_iff]
      intro q hq hcon
      rw [decide_eq_true_eq] at hcon
      have hmem := (List.mem_filter.mp hq).2
      rw [decide_eq_true_eq] at hmem
      exact hmem hcon
    have hnew_self : ((data.questions.enum.map (fun p =>
        ({ id := db.next_question_id + p.1, survey_id := survey_id,
           text := p.2.2, q_type := p.2.1, order := p.1 + 1 } : Question))).filter
        (fun q => decide (q.survey_id = survey_id))) =
        data.questions.enum.map (fun p =>
          ({ id := db.next_question_id + p.1, survey_id := survey_id,
             text := p.2.2, q_type := p.2.1, order := p.1 + 1 } : Question)) := by
      rw [List.filter_eq_self]
      intro q hq
      obtain ⟨p, _, rfl⟩ := List.mem_map.mp hq
      exact decide_eq_true rfl
    have hnew_nil : ((data.questions.enum.map (fun p =>
        ({ id := db.next_question_id + p.1, survey_id := survey_id,
           text := p.2.2, q_type := p.2.1, order := p.1 + 1 } : Question))).filter
        (fun q => decide (q.survey_id ≠ survey_id))) = [] := by
      rw [List.filter_eq_nil_iff]
      intro q hq hcon
      rw [decide_eq_true_eq] at hcon
      obtain ⟨p, _, rfl⟩ := List.mem_map.mp hq
      exact hcon rfl
    have hrem_self : ((db.questions.filter (fun q => decide (q.survey_id ≠ survey_id))).filter
        (fun q => decide (q.survey_id ≠ survey_id))) =
        db.questions.filter (fun q => decide (q.survey_id ≠ survey_id)) := by
      rw [List.filter_eq_self]
      intro q hq
      exact (List.mem_filter.mp hq).2
    have hfeq : ((save_questions_and_finish db data).1.questions.filter
        (fun q => decide (q.survey_id = survey_id))) =
        data.questions.enum.map (fun p =>
          ({ id := db.next_question_id + p.1, survey_id := survey_id,
             text := p.2.2, q_type := p.2.1, order := p.1 + 1 } : Question)) := by
      rw [heq]
      dsimp only
      rw [List.filter_append, hrem_nil, hnew_self, List.nil_append]
    refine ⟨hfeq, ?_, ?_, ?_⟩
    · rw [heq]
      dsimp only
      rw [List.filter_append, hnew_nil, hrem_self, List.append_nil]
    · rw [hfeq, List.map_map]
      have h1 : (Question.order ∘ fun p : Nat × (QuestionType × String) =>
          ({ id := db.next_question_id + p.1, survey_id := survey_id,
             text := p.2.2, q_type := p.2.1, order := p.1 + 1 } : Question)) =
          (fun i => i + 1) ∘ Prod.fst := by
        funext p
        rfl
      rw [h1, ← List.map_map, List.enum_map_fst, range_map_succ]
    · rw [heq]
      dsimp only
      rw [List.length_map, List.enum_length]

theorem finalize_full_replace_or_abort_witness :
    ADataEmpty.questions = [] ∧ AData.survey_id = some 1 ∧ AData.questions ≠ [] ∧
    (save_questions_and_finish DB1 ADataEmpty).1 = DB1 ∧
    save_questions_and_finish DB1 ADataEmpty = (DB1, .empty_cancelled) ∧
    (save_questions_and_finish DB1 AData).2 = .saved 2 :=
  ⟨rfl, rfl, by decide,
    (finalize_full_replace_or_abort DB1 ADataEmpty).1 rfl,
    (finalize_full_replace_or_abort DB1 ADataEmpty).2.1 1 rfl rfl,
    ((finalize_full_replace_or_abort DB1 AData).2.2 1 rfl (by decide)).2.2.2⟩

/-- C3 (code bug): the broadcast dispatcher installs `answering` with no
session id — `initiate_survey_for_student` merges its keys into whatever the
actor's bag already held and never writes `session_id`; the only generator
of a session id is the anonymity-selection handler, whose state no broadcast
path ever enters.  A response saved in a fresh broadcast-initiated session
therefore carries the empty session id, and with a stale bag the previous
flow's session id and anonymity flag leak into the new session's
responses. -/
theorem broadcast_session_id_bug :
    ctxFresh.state = some .answering ∧
    ctxFresh.data.session_id = none ∧
    ctxFresh.data.current_question_id = some 1 ∧
    (save_response DB3 ctxFresh.data 100 "9").2 = true ∧
    (∀ r ∈ (save_response DB3 ctxFresh.data 100 "9").1.responses, r.session_id = "") ∧
    ctxStale.state = some .answering ∧
    ctxStale.data.session_id = some "old-session" ∧
    ctxStale.data.is_anonymous = some true ∧
    (∀ r ∈ (save_response DB3 ctxStale.data 100 "9").1.responses,
      r.session_id = "old-session" ∧ r.student_tg_username = "Аноним") := by
  decide

/-- C4 (code bug): no handler ever writes `last_question_message_id`, so the
deletion branch of the /start prelude can never fire — for the very context
the broadcast installs (whose actor does have an outstanding question
message), /start clears the state and notifies but attempts no removal;
/send_now's prelude has no removal logic at all; and /help crashes with
`AttributeError` after the notice because it references the nonexistent
state `SurveyResponseStates.awaiting_answer`. -/
theorem cancellation_cleanup_bug :
    ctxFresh.state = some .answering ∧
    ctxFresh.data.last_question_message_id = none ∧
    cmd_start ctxFresh = .cancelled true false ∧
    send_now_start ctxFresh = .cancelled true false ∧
    cmd_help ctxFresh = .cancelled_then_error true
      "AttributeError: type object SurveyResponseStates has no attribute awaiting_answer" := by
  decide

/-- No survey handler of the embedding ever writes
`last_question_message_id`: the dispatcher's install, the advance step and
the anonymity handler all preserve its absence, so the key read by the
/start cleanup branch is never present and the branch never fires. -/
theorem last_question_message_id_never_written (db : DB) (student : Student)
    (q : Question) (survey_id : Nat) (sendOk : Bool) (ctx : FSMContext)
    (data : FSMData) (b : Bool) (s : String)
    (hctx : ctx.data.last_question_message_id = none)
    (hdata : data.last_question_message_id = none) :
    ((initiate_survey_for_student db student q survey_id sendOk
      ctx).2).data.last_question_message_id = none ∧
    (∀ d, send_next_question_or_complete db data = .next_question d →
      d.last_question_message_id = none) ∧
    (∀ c, handle_survey_anonymity_selection db ctx b s = some c →
      c.data.last_question_message_id = none) ∧
    (∀ st, cmd_start { state := some st, data := data } =
      .cancelled true (decide (st = .answering) && false)) := by
  refine ⟨?_, ?_, ?_, ?_⟩
  · rw [initiate_survey_for_student]
    repeat' split
    all_goals exact hctx
  · intro d hd
    rw [send_next_question_or_complete] at hd
    split at hd
    · simp at hd
    · dsimp only at hd
      split at hd
      · injection hd with h
        rw [← h]
        exact hdata
      · simp at hd
  · intro c hc
    rw [handle_survey_anonymity_selection] at hc
    split at hc
    · split at hc
      · simp at hc
      · injection hc with h
        rw [← h]
        exact hctx
    · simp at hc
  · intro st
    simp [cmd_start, hdata]

end FeedbackBot
